import Mathlib

/-!
# Verification of the asynchronous rescale pipeline of `pic_zoom.py`

This file gives a shallow embedding, in Lean 4, of the zoom/rescale core of
the image viewer implemented in `src/pic_zoom.py`, and proves (or refutes)
the specified properties of that core.

The embedding follows the Python source:

* Python's `float` arithmetic is modelled exactly: a finite IEEE-754 double
  is represented by the rational number it denotes, and every arithmetic
  step of the source is followed by `fl`, correct rounding to the nearest
  value with a 53-bit significand (ties to even).  The exponent is treated
  as unbounded, which agrees with IEEE-754 binary64 on the whole range of
  values this program manipulates (no overflow, no subnormals).
* Python's `int(x)` on a float is truncation toward zero (`pytrunc`).
* The GUI widgets are modelled by the fields of `ViewerState` that the
  source reads and writes: slider value, line-edit text, label text,
  label pixmap, enabled flag, and a log of the tasks submitted to the
  thread pool.  Qt's `QSlider.setValue` semantics (clamp to the slider
  range; emit `valueChanged`, and hence run the connected handler, only
  when the stored value actually changes) is modelled by
  `slider_setValue`.
* `ImageProcessorTask.run` is modelled as a function from an environment
  describing which of its fallible steps (`resize`, `toqimage`,
  `QPixmap.fromImage`, emission of `image_processed`) raises, to the list
  of signal emissions it performs, mirroring its `try`/`except`/`finally`
  structure.  Emission of the argumentless `finished` signal and of the
  `error(str)` signal (both cross-thread queued emissions of plain data)
  is modelled as non-raising.
* `QThreadPool` with `setMaxThreadCount(1)` is modelled by a small
  operational semantics (`poolStep`) over submit/start/complete events.
-/

attribute [local semireducible] Rat.mul Rat.inv Rat.add Rat.sub

set_option maxRecDepth 20000

namespace PicZoom

/-! ## Exact model of Python float (IEEE-754 binary64) arithmetic -/

/-- Fuel-driven auxiliary for `log2floor` (structural recursion so that the
kernel can evaluate it). -/
def log2floorAux : ℕ → ℕ → ℕ
  | 0, _ => 0
  | fuel+1, n => if n < 2 then 0 else log2floorAux fuel (n / 2) + 1

/-- Computes `⌊log₂ n⌋` for `n ≥ 1` (and `0` for `n = 0`). -/
def log2floor (n : ℕ) : ℕ := log2floorAux n n

/-- Computes `⌈log₂ n⌉` for `n ≥ 1`: the least `k` with `n ≤ 2 ^ k`. -/
def log2ceil (n : ℕ) : ℕ := if n ≤ 1 then 0 else log2floor (n - 1) + 1

/-- Round a rational to the nearest integer, ties to even. -/
def roundHalfEven (q : ℚ) : ℤ :=
  let n := ⌊q⌋
  let r := q - (n : ℚ)
  if r < 1/2 then n
  else if 1/2 < r then n + 1
  else if n % 2 = 0 then n else n + 1

/-- For `q > 0`, the unique `e : ℤ` with `2 ^ e ≤ q < 2 ^ (e + 1)`
(the floor of the base-2 logarithm); junk value elsewhere. -/
def ilog2q (q : ℚ) : ℤ :=
  if 1 ≤ q then (log2floor (⌊q⌋).toNat : ℤ)
  else -(log2ceil (⌈q⁻¹⌉).toNat : ℤ)

/-- Rounding of a positive rational to the nearest number with a 53-bit
significand, ties to even. -/
def flPos (q : ℚ) : ℚ :=
  let e : ℤ := ilog2q q
  (roundHalfEven (q * 2 ^ (52 - e)) : ℚ) * 2 ^ (e - 52)

/-- Here `fl q` is the rational value of the IEEE-754 binary64 number nearest to
`q` (ties to even), with the exponent range treated as unbounded.  Every
float produced by the Python source is the `fl` of an exact rational. -/
def fl (q : ℚ) : ℚ :=
  if q = 0 then 0
  else if q < 0 then -flPos (-q) else flPos q

/-- Python float multiplication: exact product, correctly rounded. -/
def dmul (a b : ℚ) : ℚ := fl (a * b)

/-- Python float division: exact quotient, correctly rounded. -/
def ddiv (a b : ℚ) : ℚ := fl (a / b)

/-- Python `int(x)` applied to a float: truncation toward zero. -/
def pytrunc (q : ℚ) : ℤ :=
  if 0 ≤ q then ⌊q⌋ else -⌊-q⌋

/-! ## Python `float(str)` parsing

`pyfloat?` models Python's `float` constructor on strings: surrounding
whitespace is ignored, the decimal literal (optional sign, integer part,
optional fractional part, optional exponent part) is read exactly, and the
result is the correctly rounded double of that exact rational — CPython's
`strtod` is correctly rounded.  The special forms `inf`/`nan` and
underscore digit separators are outside this model; on strings using them
the model returns `none` (for `inf`/`nan` the viewer behaves identically
to the parse-failure branch anyway, since they fail the range test). -/

/-- Python `str.strip()` with no argument: remove leading and trailing
whitespace (modelled for the ASCII whitespace characters). -/
def pystrip (s : String) : String :=
  String.mk (((s.data.dropWhile Char.isWhitespace).reverse.dropWhile Char.isWhitespace).reverse)

/-- Python `str.endswith('%')`. -/
def endsWithPercent (s : String) : Bool :=
  s.data.getLast? == some '%'

/-- Numeric value of a list of decimal digit characters. -/
def digitsVal (cs : List Char) : ℕ :=
  cs.foldl (fun n c => 10 * n + (c.toNat - 48)) 0

/-- Exact rational value of a decimal literal, or `none` if the string is
not a decimal literal. -/
def parseDecimal? (s : String) : Option ℚ :=
  let cs := s.data
  let signAndRest : ℚ × List Char :=
    match cs with
    | '-' :: rest => (-1, rest)
    | '+' :: rest => (1, rest)
    | _ => (1, cs)
  let sign := signAndRest.1
  let cs := signAndRest.2
  let intPart := cs.takeWhile Char.isDigit
  let cs := cs.dropWhile Char.isDigit
  let fracAndRest : List Char × List Char :=
    match cs with
    | '.' :: rest => (rest.takeWhile Char.isDigit, rest.dropWhile Char.isDigit)
    | _ => ([], cs)
  let fracPart := fracAndRest.1
  let cs := fracAndRest.2
  if intPart.isEmpty && fracPart.isEmpty then none
  else
    let mantissa : ℚ :=
      sign * ((digitsVal intPart : ℚ) + (digitsVal fracPart : ℚ) / 10 ^ fracPart.length)
    match cs with
    | [] => some mantissa
    | c :: rest =>
      if c = 'e' ∨ c = 'E' then
        let esignAndRest : ℤ × List Char :=
          match rest with
          | '-' :: r => (-1, r)
          | '+' :: r => (1, r)
          | _ => (1, rest)
        let esign := esignAndRest.1
        let rest := esignAndRest.2
        let expPart := rest.takeWhile Char.isDigit
        let rest := rest.dropWhile Char.isDigit
        if expPart.isEmpty || !rest.isEmpty then none
        else some (mantissa * 10 ^ (esign * (digitsVal expPart : ℤ)))
      else none

/-- Python `float(s)` on a string: parse the decimal exactly, then round
correctly to a double.  Whitespace around the literal is ignored. -/
def pyfloat? (s : String) : Option ℚ :=
  (parseDecimal? (pystrip s)).map fl

/-! ## `ImageProcessorTask` (src/pic_zoom.py lines 19–67)

The task is constructed with `original_image_pil` (modelled by the image's
`(width, height)`, or `none` for an absent image) and `new_size`.  Its
`run` method is modelled as a function from an environment saying which of
its fallible steps raises an exception — `PIL.Image.resize`,
`Image.toqimage`, `QPixmap.fromImage`, and the emission of the
`image_processed(QPixmap)` signal, each carried out inside the `try`
block — to the sequence of observable events `run` performs.  Emission of
`error(str)` and of the argumentless `finished` signal (cross-thread
queued emissions of plain data) is modelled as non-raising.  `propagated`
is the exception escaping `run`, `none` on every path because every
fallible step is inside `try` and the `except Exception` clause catches
everything. -/

/-- An observable event of `ImageProcessorTask.run`. -/
inductive RunEvent where
  /-- The call `original_image_pil.resize((width, height), LANCZOS)` with
  the given arguments (recorded whether or not the call raises). -/
  | resizeCall (width height : ℤ)
  /-- Emission of the `image_processed(QPixmap)` signal (the success
  outcome). -/
  | emitImage
  /-- Emission of the `error(str)` signal (the failure outcome). -/
  | emitError (msg : String)
  /-- Emission of the argumentless `finished` signal. -/
  | emitFinished
deriving DecidableEq

/-- Which steps of the `try` block raise, and the message of the raised
exception. -/
structure RunEnv where
  resizeErr : Option String
  toqimageErr : Option String
  fromImageErr : Option String
  emitImageErr : Option String
deriving DecidableEq

/-- Result of one execution of `ImageProcessorTask.run`. -/
structure RunResult where
  events : List RunEvent
  propagated : Option String
deriving DecidableEq

/-- Message emitted when the source image reference is absent
(src/pic_zoom.py line 37). -/
def noImageMsg : String := "没有加载图片，无法处理。"

/-- Prefix of the message emitted by the `except` clause
(src/pic_zoom.py line 64, from the f-string). -/
def processFailMsg : String := "图片处理失败: "

namespace ImageProcessorTask

/-- Model of `ImageProcessorTask.run` (src/pic_zoom.py lines 29–67). -/
def run (original_image_pil : Option (ℤ × ℤ)) (new_size : ℤ × ℤ) (env : RunEnv) :
    RunResult :=
  match original_image_pil with
  | none => ⟨[.emitError noImageMsg, .emitFinished], none⟩
  | some _ =>
    let width := new_size.1
    let height := new_size.2
    let width := if width < 1 then 1 else width
    let height := if height < 1 then 1 else height
    match env.resizeErr with
    | some e => ⟨[.resizeCall width height, .emitError (processFailMsg ++ e), .emitFinished], none⟩
    | none =>
      match env.toqimageErr with
      | some e => ⟨[.resizeCall width height, .emitError (processFailMsg ++ e), .emitFinished], none⟩
      | none =>
        match env.fromImageErr with
        | some e => ⟨[.resizeCall width height, .emitError (processFailMsg ++ e), .emitFinished], none⟩
        | none =>
          match env.emitImageErr with
          | some e => ⟨[.resizeCall width height, .emitError (processFailMsg ++ e), .emitFinished], none⟩
          | none => ⟨[.resizeCall width height, .emitImage, .emitFinished], none⟩

end ImageProcessorTask

/-- Outcome events are emissions of `image_processed` or `error`. -/
def RunEvent.isOutcome : RunEvent → Bool
  | .emitImage => true
  | .emitError _ => true
  | _ => false

/-! ## `ImageViewer` (src/pic_zoom.py lines 69–306)

The viewer is modelled by the state the rescale pipeline reads and
writes: the held source image (by its size), the zoom factor, the slider
value, the line-edit text, the label text and pixmap, the enabled flag of
the two zoom controls, and the ordered log of the tasks handed to
`QThreadPool.start`.  A pixmap is an abstract handle `ℕ`; the null
`QPixmap()` that clears the label is `none`.

Qt semantics used by the embedding: `QSlider.setValue` clamps its
argument to the slider's range (10–500, src/pic_zoom.py lines 113–114)
and emits `valueChanged` — hence runs the connected
`update_zoom_from_slider` — only when the stored value actually changes. -/

/-- A task instance handed to `QThreadPool.start`
(src/pic_zoom.py lines 245–254). -/
structure SubmittedTask where
  original_image_pil : Option (ℤ × ℤ)
  new_size : ℤ × ℤ
deriving DecidableEq

/-- The mutable state of `ImageViewer` used by the rescale pipeline. -/
structure ViewerState where
  original_image_pil : Option (ℤ × ℤ)
  current_zoom_factor : ℚ
  zoom_slider : ℤ
  zoom_input : String
  image_label_text : String
  image_label_pixmap : Option ℕ
  controls_enabled : Bool
  submitted : List SubmittedTask
deriving DecidableEq

/-- The "processing" placeholder text (src/pic_zoom.py line 258). -/
def processingText : String := "正在处理图片，请稍候..."

/-- The "no image loaded" prompt (src/pic_zoom.py line 265). -/
def promptText : String := "请点击 \x27打开图片\x27 加载图片"

/-- Prefix of the open-failure inline error (src/pic_zoom.py line 200). -/
def cannotLoadText : String := "无法加载图片: "

/-- Prefix of the processing-error inline text (src/pic_zoom.py line 293). -/
def errorPrefixText : String := "错误: "

/-- The percent sign, used by the text-input parsing and mirroring. -/
def percentStr : String := "%"

/-- One side-effecting statement of `ImageViewer.display_image`, in the
order the source performs them. -/
inductive UIAction where
  | connectImageProcessed
  | connectError
  | connectFinished
  /-- The call `self.thread_pool.start(task)` (src/pic_zoom.py line 254). -/
  | startTask (t : SubmittedTask)
  | setLabelText (t : String)
  | setLabelPixmap (p : Option ℕ)
  | setControlsEnabled (b : Bool)
deriving DecidableEq

/-- Whether a `UIAction` is the submission to the thread pool. -/
def UIAction.isStartTask : UIAction → Bool
  | .startTask _ => true
  | _ => false

/-- Effect of one `UIAction` on the viewer state. -/
def applyUIAction (s : ViewerState) : UIAction → ViewerState
  | .connectImageProcessed => s
  | .connectError => s
  | .connectFinished => s
  | .startTask t => { s with submitted := s.submitted ++ [t] }
  | .setLabelText t => { s with image_label_text := t }
  | .setLabelPixmap p => { s with image_label_pixmap := p }
  | .setControlsEnabled b => { s with controls_enabled := b }

/-- Effect of a sequence of `UIAction`s. -/
def applyUIActions (s : ViewerState) (l : List UIAction) : ViewerState :=
  l.foldl applyUIAction s

/-- The sequence of side-effecting statements `ImageViewer.display_image`
performs (src/pic_zoom.py lines 230–267), in source order.  With an image
loaded: compute `new_width = int(original_width * current_zoom_factor)`
and likewise for the height, build the task, connect its three signals,
**submit it to the pool**, and only then show the processing placeholder,
clear the old pixmap and disable the controls.  With no image: show the
prompt, clear the pixmap, enable the controls. -/
def display_image_actions (s : ViewerState) : List UIAction :=
  match s.original_image_pil with
  | some wh =>
    let original_width := wh.1
    let original_height := wh.2
    let new_width := pytrunc (dmul (original_width : ℚ) s.current_zoom_factor)
    let new_height := pytrunc (dmul (original_height : ℚ) s.current_zoom_factor)
    [.connectImageProcessed, .connectError, .connectFinished,
     .startTask ⟨s.original_image_pil, (new_width, new_height)⟩,
     .setLabelText processingText, .setLabelPixmap none, .setControlsEnabled false]
  | none =>
    [.setLabelText promptText, .setLabelPixmap none, .setControlsEnabled true]

/-- Model of `ImageViewer.display_image` as a state transformer. -/
def display_image (s : ViewerState) : ViewerState :=
  applyUIActions s (display_image_actions s)

/-- Model of `ImageViewer.update_zoom_from_slider` (src/pic_zoom.py lines 206–210):
`current_zoom_factor = value / 100.0`, mirror `f"{value}%"` into the text
field, then `display_image()`.  `value` is the slider's integer value. -/
def update_zoom_from_slider (value : ℤ) (s : ViewerState) : ViewerState :=
  let s := { s with current_zoom_factor := ddiv (value : ℚ) 100 }
  let s := { s with zoom_input := toString value ++ percentStr }
  display_image s

/-- Qt's `QSlider.setValue` on the zoom slider: clamp to the range 10–500;
if the value changes, store it and run the connected
`update_zoom_from_slider`; otherwise do nothing. -/
def slider_setValue (v : ℤ) (s : ViewerState) : ViewerState :=
  let v := max 10 (min 500 v)
  if v = s.zoom_slider then s
  else update_zoom_from_slider v { s with zoom_slider := v }

/-- The restore expression `f"{int(self.current_zoom_factor * 100)}%"`
(src/pic_zoom.py lines 226 and 228). -/
def currentPercentText (s : ViewerState) : String :=
  toString (pytrunc (dmul s.current_zoom_factor 100)) ++ percentStr

/-- Lines 215–219 of src/pic_zoom.py: strip the text; a trailing `%`
means percent, else the bare number is a multiplier (`float(text) * 100`);
`none` when `float` raises `ValueError`. -/
def input_parsed_value (text : String) : Option ℚ :=
  let text := pystrip text
  if endsWithPercent text then pyfloat? (text.dropRight 1)
  else (pyfloat? text).map (fun v => dmul v 100)

/-- Model of `ImageViewer.update_zoom_from_input` (src/pic_zoom.py lines 212–228):
parse; if the value is in `[10, 500]`, `zoom_slider.setValue(int(value))`
(which triggers `update_zoom_from_slider` when the value changes);
otherwise — as on a parse failure — restore the text field to
`f"{int(current_zoom_factor * 100)}%"`. -/
def update_zoom_from_input (s : ViewerState) : ViewerState :=
  match input_parsed_value s.zoom_input with
  | some value =>
    if 10 ≤ value ∧ value ≤ 500 then slider_setValue (pytrunc value) s
    else { s with zoom_input := currentPercentText s }
  | none => { s with zoom_input := currentPercentText s }

/-- Model of `ImageViewer.set_zoom_factor` (src/pic_zoom.py lines 173–183):
`slider_value = int(factor * 100)`, clamped to the slider range, then
`zoom_slider.setValue(slider_value)`. -/
def set_zoom_factor (factor : ℚ) (s : ViewerState) : ViewerState :=
  let slider_value := pytrunc (dmul factor 100)
  let slider_value := max 10 (min 500 slider_value)
  slider_setValue slider_value s

/-- The success path of `ImageViewer.open_image`
(src/pic_zoom.py lines 191–197) for a decoded image of size `wh`: store
the image, reset the factor to 1.0, `zoom_slider.setValue(100)` (this
triggers `update_zoom_from_slider` when the slider was not at 100),
reset the text field to `"100%"`, then `display_image()`. -/
def open_image_success (wh : ℤ × ℤ) (s : ViewerState) : ViewerState :=
  let s := { s with original_image_pil := some wh }
  let s := { s with current_zoom_factor := 1 }
  let s := slider_setValue 100 s
  let s := { s with zoom_input := "100%" }
  display_image s

/-- The failure path of `ImageViewer.open_image`
(src/pic_zoom.py lines 198–202) with exception text `e`: show the inline
error, drop the held image, clear the pixmap. -/
def open_image_failure (e : String) (s : ViewerState) : ViewerState :=
  let s := { s with image_label_text := cannotLoadText ++ e }
  let s := { s with original_image_pil := none }
  { s with image_label_pixmap := none }

/-- Model of `ImageViewer._update_image_display` (src/pic_zoom.py lines 269–288):
show the received pixmap. -/
def _update_image_display (pixmap : ℕ) (s : ViewerState) : ViewerState :=
  { s with image_label_pixmap := some pixmap }

/-- Model of `ImageViewer._handle_processing_error` (src/pic_zoom.py lines
289–294): show the error text, clear the pixmap. -/
def _handle_processing_error (error_message : String) (s : ViewerState) : ViewerState :=
  let s := { s with image_label_text := errorPrefixText ++ error_message }
  { s with image_label_pixmap := none }

/-- Model of `ImageViewer._set_controls_enabled` (src/pic_zoom.py lines 302–305). -/
def _set_controls_enabled (enabled : Bool) (s : ViewerState) : ViewerState :=
  { s with controls_enabled := enabled }

/-- Model of `ImageViewer._processing_finished` (src/pic_zoom.py lines 296–300):
re-enable the controls. -/
def _processing_finished (s : ViewerState) : ViewerState :=
  _set_controls_enabled true s

/-! ## The bounded worker pool (src/pic_zoom.py lines 78–81)

`QThreadPool` with `setMaxThreadCount(1)` is modelled by a small
operational semantics over its documented behavior: `start` appends the
task to the pending queue; an idle worker may pick up the *head* of the
queue whenever fewer than `maxThreadCount` tasks are running; a running
task may complete, which delivers its outcome.  Tasks are identified by
natural numbers; the delivery order is the order completions are
marshaled onto the interactive thread. -/

/-- State of the thread pool. -/
structure PoolState where
  maxThreadCount : ℕ
  queue : List ℕ
  running : List ℕ
  delivered : List ℕ
deriving DecidableEq

/-- Model of `QThreadPool.setMaxThreadCount` (src/pic_zoom.py line 81). -/
def setMaxThreadCount (n : ℕ) (p : PoolState) : PoolState :=
  { p with maxThreadCount := n }

/-- The pool as `ImageViewer.__init__` builds it (src/pic_zoom.py lines
79–81): a fresh pool, then `setMaxThreadCount(1)`. -/
def threadPoolInit : PoolState :=
  setMaxThreadCount 1 { maxThreadCount := 8, queue := [], running := [], delivered := [] }

/-- A scheduling event of the pool. -/
inductive PoolEvent where
  /-- The call `thread_pool.start(task)`: enqueue task `i` (non-blocking). -/
  | submit (i : ℕ)
  /-- An idle worker picks up the head of the pending queue. -/
  | dispatch
  /-- Running task `i` finishes; its outcome is delivered. -/
  | complete (i : ℕ)
deriving DecidableEq

/-- One scheduling step; `none` when the event cannot occur in `p`. -/
def poolStep (p : PoolState) : PoolEvent → Option PoolState
  | .submit i => some { p with queue := p.queue ++ [i] }
  | .dispatch =>
    match p.queue with
    | [] => none
    | i :: rest =>
      if p.running.length < p.maxThreadCount then
        some { p with queue := rest, running := p.running ++ [i] }
      else none
  | .complete i =>
    if i ∈ p.running then
      some { p with running := p.running.erase i, delivered := p.delivered ++ [i] }
    else none

/-- Run a sequence of scheduling events. -/
def runPool (p : PoolState) : List PoolEvent → Option PoolState
  | [] => some p
  | e :: es =>
    match poolStep p e with
    | none => none
    | some q => runPool q es

/-- The tasks a trace submits, in submission order. -/
def submitsOf (es : List PoolEvent) : List ℕ :=
  es.filterMap fun e =>
    match e with
    | .submit i => some i
    | _ => none

/-- Outcome of a rescale task, as delivered to the result sink. -/
inductive TaskOutcome where
  | success (pixmap : ℕ)
  | failure (msg : String)
deriving DecidableEq

/-- Delivery of one outcome on the interactive thread: `image_processed`
is connected to `_update_image_display`, `error` to
`_handle_processing_error` (src/pic_zoom.py lines 249–250). -/
def applyOutcome (s : ViewerState) : TaskOutcome → ViewerState
  | .success pixmap => _update_image_display pixmap s
  | .failure msg => _handle_processing_error msg s

/-- The pixmap the label shows right after an outcome is delivered. -/
def renderedPixmap : TaskOutcome → Option ℕ
  | .success pixmap => some pixmap
  | .failure _ => none

/-- A viewer state with the given image, zoom factor, slider value and
text-field content; label empty, no pixmap shown, controls enabled,
nothing submitted yet.  Used to instantiate theorems at concrete
scenarios. -/
def demoState (orig : Option (ℤ × ℤ)) (factor : ℚ) (slider : ℤ) (input : String) :
    ViewerState :=
  { original_image_pil := orig
    current_zoom_factor := factor
    zoom_slider := slider
    zoom_input := input
    image_label_text := ""
    image_label_pixmap := none
    controls_enabled := true
    submitted := [] }

/-! ## Demo strings for concrete scenarios -/

/-- The text `"100%"`. -/
def pctInput100 : String := "100%"

/-- The text `"150%"`. -/
def pctInput150 : String := "150%"

/-- The text `"1.5"`. -/
def multInput15 : String := "1.5"

/-- The text `"10%"`. -/
def pctInput10 : String := "10%"

/-- An unparsable committed text. -/
def badInput : String := "abc"

/-- The text `"28%"`. -/
def pct28 : String := "28%"

/-- The text `"29%"`. -/
def pct29 : String := "29%"

/-- A demo decode-failure message. -/
def demoErrMsg : String := "cannot identify image file"

/-- The target size asserted by the claim (and §3/§8 of the spec):
`(round(W₀·v/100), round(H₀·v/100))`, each component clamped to a minimum
of 1.  Claim-side definition, written from the spec's words for
comparison with the code's derivation; `round` is Python's `round`
(ties to even). -/
def claimTargetSize (w0 h0 v : ℤ) : ℤ × ℤ :=
  (max 1 (roundHalfEven ((w0 * v : ℤ) / (100 : ℚ))),
   max 1 (roundHalfEven ((h0 * v : ℤ) / (100 : ℚ))))

/-- A viewer state showing a pixmap (handle 7), as after a successful
rescale of a loaded 8×6 image at 100%. -/
def shownDemoState : ViewerState :=
  { demoState (some (8, 6)) 1 100 pctInput100 with image_label_pixmap := some 7 }

/-- A demo scheduling trace: two tasks submitted in order, each picked up
and completed. -/
def demoPoolEvents : List PoolEvent :=
  [.submit 0, .dispatch, .complete 0, .submit 1, .dispatch, .complete 1]

/-! ## Helper lemmas about the embedding -/

theorem max_one_eq_ite (x : ℤ) : (if x < 1 then 1 else x) = max 1 x := by
  split <;> omega

/-- Evaluation of `display_image` when an image is loaded. -/
theorem display_image_loaded (s : ViewerState) (w0 h0 : ℤ)
    (h : s.original_image_pil = some (w0, h0)) :
    display_image s = { s with
      submitted := s.submitted ++ [⟨some (w0, h0),
        (pytrunc (dmul (w0 : ℚ) s.current_zoom_factor),
         pytrunc (dmul (h0 : ℚ) s.current_zoom_factor))⟩],
      image_label_text := processingText,
      image_label_pixmap := none,
      controls_enabled := false } := by
  simp [display_image, display_image_actions, h, applyUIActions, applyUIAction]

/-- Evaluation of `update_zoom_from_slider` when an image is loaded. -/
theorem update_zoom_from_slider_loaded (v : ℤ) (s : ViewerState) (w0 h0 : ℤ)
    (h : s.original_image_pil = some (w0, h0)) :
    update_zoom_from_slider v s = { s with
      current_zoom_factor := ddiv (v : ℚ) 100,
      zoom_input := toString v ++ percentStr,
      submitted := s.submitted ++ [⟨some (w0, h0),
        (pytrunc (dmul (w0 : ℚ) (ddiv (v : ℚ) 100)),
         pytrunc (dmul (h0 : ℚ) (ddiv (v : ℚ) 100)))⟩],
      image_label_text := processingText,
      image_label_pixmap := none,
      controls_enabled := false } := by
  have h2 : ({ s with current_zoom_factor := ddiv (v : ℚ) 100, zoom_input := toString v ++ percentStr } : ViewerState).original_image_pil = some (w0, h0) := h
  unfold update_zoom_from_slider
  rw [display_image_loaded _ w0 h0 h2]

/-- Evaluation of `slider_setValue` when the (clamped) value is already stored. -/
theorem slider_setValue_unchanged (v : ℤ) (s : ViewerState)
    (h : max 10 (min 500 v) = s.zoom_slider) :
    slider_setValue v s = s := by
  simp [slider_setValue, h]

/-- Evaluation of `slider_setValue` when the (clamped) value differs from the stored
one. -/
theorem slider_setValue_changed (v : ℤ) (s : ViewerState)
    (h : max 10 (min 500 v) ≠ s.zoom_slider) :
    slider_setValue v s
      = update_zoom_from_slider (max 10 (min 500 v))
          { s with zoom_slider := max 10 (min 500 v) } := by
  simp [slider_setValue, h]

/-- The pass `display_image` never touches the zoom factor. -/
theorem display_image_factor (s : ViewerState) :
    (display_image s).current_zoom_factor = s.current_zoom_factor := by
  unfold display_image display_image_actions
  cases h : s.original_image_pil <;> simp [applyUIActions, applyUIAction]

/-- Evaluation of `update_zoom_from_input` on a parsable, in-range
value. -/
theorem update_zoom_from_input_valid (s : ViewerState) (value : ℚ)
    (hv : input_parsed_value s.zoom_input = some value)
    (hrange : 10 ≤ value ∧ value ≤ 500) :
    update_zoom_from_input s = slider_setValue (pytrunc value) s := by
  unfold update_zoom_from_input
  rw [hv]
  simp [hrange]

/-- The per-value range fact behind the zoom-domain invariant: for every
slider value `10 + n` with `n < 491`, the stored factor
`(10 + n) / 100.0` lies in `[0.10, 5.00]`.  Checked by evaluating the
float model on all 491 slider values. -/
theorem ddiv_range_bounded :
    ∀ n < 491, 1/10 ≤ ddiv ((10 + n : ℕ) : ℚ) 100 ∧ ddiv ((10 + n : ℕ) : ℚ) 100 ≤ 5 := by
  decide

/-- For every slider value `v ∈ [10, 500]`, the float `v / 100.0` lies in
the zoom domain `[0.10, 5.00]`. -/
theorem ddiv_slider_in_domain (v : ℤ) (h1 : 10 ≤ v) (h2 : v ≤ 500) :
    1/10 ≤ ddiv (v : ℚ) 100 ∧ ddiv (v : ℚ) 100 ≤ 5 := by
  have hn : ((10 + (v - 10).toNat : ℕ) : ℤ) = v := by omega
  have hb : (v - 10).toNat < 491 := by omega
  have hq := ddiv_range_bounded (v - 10).toNat hb
  have hc : ((10 + (v - 10).toNat : ℕ) : ℚ) = (v : ℚ) := by
    exact_mod_cast congrArg (fun x : ℤ => (x : ℚ)) hn
  rw [← hc]
  exact hq

/-! ## Claim theorems -/

/-- Claim C2: For every execution of `ImageProcessorTask.run` — any source
image reference, including an absent one, any target size, and any
combination of failing fallible steps — exactly one outcome signal
(`image_processed` or `error`) is emitted, no exception propagates out of
`run`, and the `finished` signal is emitted last, strictly after the
outcome, including when emitting the success outcome itself fails. -/
theorem run_emits_one_outcome_then_finished
    (img : Option (ℤ × ℤ)) (new_size : ℤ × ℤ) (env : RunEnv) :
    ∃ evs, (ImageProcessorTask.run img new_size env).events = evs ++ [RunEvent.emitFinished] ∧
      (evs.filter RunEvent.isOutcome).length = 1 ∧
      RunEvent.emitFinished ∉ evs ∧
      (ImageProcessorTask.run img new_size env).propagated = none := by
  rcases img with _ | wh
  · exact ⟨[RunEvent.emitError noImageMsg], rfl, rfl, by simp, rfl⟩
  · rcases env with ⟨_ | e1, _ | e2, _ | e3, _ | e4⟩ <;>
      exact ⟨[RunEvent.resizeCall _ _, _], rfl, rfl, by simp [ImageProcessorTask.run], rfl⟩

/-- Claim C10: Whenever `ImageProcessorTask.run` invokes the resample
primitive, the width and height it passes are `max 1` of the constructed
target components, hence at least 1 — even when the task was constructed
with a zero or negative component.  Moreover the controller's derivation
can indeed produce such a component: a 10% zoom of a 5-pixel-wide image
truncates to width 0 at derivation (submitted size `(0, 0)`), and `run`
then calls the resampler with `(1, 1)`. -/
theorem run_resize_args_at_least_one
    (wh new_size : ℤ × ℤ) (env : RunEnv) (w h : ℤ)
    (hmem : RunEvent.resizeCall w h ∈ (ImageProcessorTask.run (some wh) new_size env).events) :
    (w = max 1 new_size.1 ∧ h = max 1 new_size.2 ∧ 1 ≤ w ∧ 1 ≤ h) ∧
    (display_image (demoState (some (5, 5)) (ddiv 10 100) 10 pctInput10)).submitted
      = [⟨some (5, 5), (0, 0)⟩] ∧
    RunEvent.resizeCall 1 1 ∈
      (ImageProcessorTask.run (some (5, 5)) (0, 0) ⟨none, none, none, none⟩).events := by
  refine ⟨?_, by decide, by decide⟩
  have hw := max_one_eq_ite new_size.1
  have hh := max_one_eq_ite new_size.2
  rcases env with ⟨_ | e1, _ | e2, _ | e3, _ | e4⟩ <;>
    simp only [ImageProcessorTask.run, List.mem_cons, List.not_mem_nil, or_false,
      RunEvent.resizeCall.injEq] at hmem <;>
    rcases hmem with ⟨rfl, rfl⟩ | hmem <;>
    first
      | exact ⟨by rw [← hw], by rw [← hh], by omega, by omega⟩
      | simp_all

/-- Witness for `run_resize_args_at_least_one` at the concrete instance:
a task constructed with target `(0, 0)` passes `(1, 1)` to the resampler. -/
theorem run_resize_args_at_least_one_witness :
    (RunEvent.resizeCall 1 1 ∈
      (ImageProcessorTask.run (some (5, 5)) ((0 : ℤ), (0 : ℤ)) ⟨none, none, none, none⟩).events) ∧
    (((1 : ℤ) = max 1 ((0 : ℤ), (0 : ℤ)).1 ∧ (1 : ℤ) = max 1 ((0 : ℤ), (0 : ℤ)).2 ∧
        (1 : ℤ) ≤ 1 ∧ (1 : ℤ) ≤ 1) ∧
      (display_image (demoState (some (5, 5)) (ddiv 10 100) 10 pctInput10)).submitted
        = [⟨some (5, 5), (0, 0)⟩] ∧
      RunEvent.resizeCall 1 1 ∈
        (ImageProcessorTask.run (some (5, 5)) (0, 0) ⟨none, none, none, none⟩).events) :=
  ⟨by decide,
   run_resize_args_at_least_one (5, 5) ((0 : ℤ), (0 : ℤ)) ⟨none, none, none, none⟩ 1 1 (by decide)⟩

/-- Claim C1, counterexample: The claim asserts the submitted target size is
`(round(W₀·v/100), round(H₀·v/100))` clamped to ≥ 1.  For a loaded 1×1
image and slider value 150 the claimed size is `(2, 2)` (since
`round(1.5) = 2`), but the task actually submitted carries `(1, 1)`:
the code truncates with `int(...)` instead of rounding. -/
theorem slider_target_size_claim_cex :
    (update_zoom_from_slider 150 (demoState (some (1, 1)) 1 100 pctInput100)).submitted
      = [⟨some (1, 1), (1, 1)⟩] ∧
    claimTargetSize 1 1 150 = (2, 2) ∧
    ((1, 1) : ℤ × ℤ) ≠ (2, 2) := by
  decide

/-- Claim C1, amended: For every slider value `v` and loaded image
`(W₀, H₀)`, the slider edge submits exactly one task whose carried target
size is `(int(W₀ · (v/100.0)), int(H₀ · (v/100.0)))` — float truncation,
not rounding, and *not* clamped at submission; the clamp of each
component to a minimum of 1 is applied inside `run` before resampling. -/
theorem slider_target_size (v w0 h0 : ℤ) (s : ViewerState)
    (him : s.original_image_pil = some (w0, h0)) :
    (update_zoom_from_slider v s).submitted
      = s.submitted ++ [⟨some (w0, h0),
          (pytrunc (dmul (w0 : ℚ) (ddiv (v : ℚ) 100)),
           pytrunc (dmul (h0 : ℚ) (ddiv (v : ℚ) 100)))⟩] ∧
    ∀ env, RunEvent.resizeCall
        (max 1 (pytrunc (dmul (w0 : ℚ) (ddiv (v : ℚ) 100))))
        (max 1 (pytrunc (dmul (h0 : ℚ) (ddiv (v : ℚ) 100)))) ∈
      (ImageProcessorTask.run (some (w0, h0))
        (pytrunc (dmul (w0 : ℚ) (ddiv (v : ℚ) 100)),
         pytrunc (dmul (h0 : ℚ) (ddiv (v : ℚ) 100))) env).events := by
  constructor
  · rw [update_zoom_from_slider_loaded v s w0 h0 him]
  · intro env
    have hw := max_one_eq_ite (pytrunc (dmul (w0 : ℚ) (ddiv (v : ℚ) 100)))
    have hh := max_one_eq_ite (pytrunc (dmul (h0 : ℚ) (ddiv (v : ℚ) 100)))
    rcases env with ⟨_ | e1, _ | e2, _ | e3, _ | e4⟩ <;>
      simp only [ImageProcessorTask.run, ← hw, ← hh] <;> simp

/-- Witness for `slider_target_size`: a loaded 40×30 image at slider 150
submits the task with size `(60, 45)`. -/
theorem slider_target_size_witness :
    (demoState (some (40, 30)) 1 100 pctInput100).original_image_pil = some (40, 30) ∧
    ((update_zoom_from_slider 150 (demoState (some (40, 30)) 1 100 pctInput100)).submitted
      = (demoState (some (40, 30)) 1 100 pctInput100).submitted ++ [⟨some (40, 30),
          (pytrunc (dmul ((40 : ℤ) : ℚ) (ddiv ((150 : ℤ) : ℚ) 100)),
           pytrunc (dmul ((30 : ℤ) : ℚ) (ddiv ((150 : ℤ) : ℚ) 100)))⟩] ∧
      ∀ env, RunEvent.resizeCall
          (max 1 (pytrunc (dmul ((40 : ℤ) : ℚ) (ddiv ((150 : ℤ) : ℚ) 100))))
          (max 1 (pytrunc (dmul ((30 : ℤ) : ℚ) (ddiv ((150 : ℤ) : ℚ) 100)))) ∈
        (ImageProcessorTask.run (some (40, 30))
          (pytrunc (dmul ((40 : ℤ) : ℚ) (ddiv ((150 : ℤ) : ℚ) 100)),
           pytrunc (dmul ((30 : ℤ) : ℚ) (ddiv ((150 : ℤ) : ℚ) 100))) env).events) :=
  ⟨rfl, slider_target_size 150 40 30 (demoState (some (40, 30)) 1 100 pctInput100) rfl⟩

/-- Claim C4, counterexample: Moving the slider to 29 mirrors the pre-edit
string `"29%"` and stores factor `0.29`; committing the unparsable text
`"abc"` then restores the field to `"28%"`, not `"29%"`, because
`int(0.29 * 100)` is 28 in float arithmetic. -/
theorem input_revert_string_cex :
    (update_zoom_from_slider 29 (demoState (some (100, 100)) 1 100 pctInput100)).zoom_input
      = pct29 ∧
    (update_zoom_from_slider 29 (demoState (some (100, 100)) 1 100 pctInput100)).current_zoom_factor
      = ddiv 29 100 ∧
    (update_zoom_from_input (demoState (some (100, 100)) (ddiv 29 100) 29 badInput)).zoom_input
      = pct28 ∧
    pct28 ≠ pct29 := by
  decide

/-- Claim C4, amended: A committed text that is unparsable or whose value
lies outside `[10, 500]` leaves the zoom factor, the displayed image, the
label and the submission log unchanged and submits nothing; the text
field is set to `f"{int(current_zoom_factor * 100)}%"` — the truncated
percent rendering of the current factor, which can differ by one from the
pre-edit mirrored string (e.g. `"28%"` when the factor came from slider
value 29). -/
theorem input_invalid_reverts (s : ViewerState)
    (hbad : input_parsed_value s.zoom_input = none ∨
      ∃ v, input_parsed_value s.zoom_input = some v ∧ ¬(10 ≤ v ∧ v ≤ 500)) :
    update_zoom_from_input s = { s with zoom_input := currentPercentText s } := by
  unfold update_zoom_from_input
  rcases hbad with hnone | ⟨v, hv, hout⟩
  · rw [hnone]
  · rw [hv]
    simp [hout]

/-- Claim C7: Committing the text `"150%"` and committing the text `"1.5"`
yield the same resulting zoom factor 1.50 and the same submission log
(hence the same submitted target size) for any loaded image, from any
consistent controller state. -/
theorem text_percent_and_multiplier_same (s : ViewerState) (w0 h0 : ℤ)
    (him : s.original_image_pil = some (w0, h0))
    (hinv : s.current_zoom_factor = ddiv (s.zoom_slider : ℚ) 100) :
    (update_zoom_from_input { s with zoom_input := pctInput150 }).current_zoom_factor = 3/2 ∧
    (update_zoom_from_input { s with zoom_input := multInput15 }).current_zoom_factor = 3/2 ∧
    (update_zoom_from_input { s with zoom_input := pctInput150 }).submitted
      = (update_zoom_from_input { s with zoom_input := multInput15 }).submitted := by
  obtain ⟨o, cf, zs, zi, lt, lp, ce, sub⟩ := s
  replace him : o = some (w0, h0) := him
  replace hinv : cf = ddiv (zs : ℚ) 100 := hinv
  subst him
  subst hinv
  have hclamp : max 10 (min 500 (150 : ℤ)) = 150 := by decide
  have h32 : ddiv ((150 : ℤ) : ℚ) 100 = 3/2 := by decide
  have e1 := update_zoom_from_input_valid
    (⟨some (w0, h0), ddiv (zs : ℚ) 100, zs, pctInput150, lt, lp, ce, sub⟩ : ViewerState) 150
    (show input_parsed_value pctInput150 = some 150 by decide) (by decide)
  have e2 := update_zoom_from_input_valid
    (⟨some (w0, h0), ddiv (zs : ℚ) 100, zs, multInput15, lt, lp, ce, sub⟩ : ViewerState) 150
    (show input_parsed_value multInput15 = some 150 by decide) (by decide)
  rw [show pytrunc (150 : ℚ) = 150 by decide] at e1 e2
  rw [e1, e2]
  by_cases hsl : (150 : ℤ) = zs
  · subst hsl
    rw [slider_setValue_unchanged _ _ (show max 10 (min 500 (150 : ℤ)) = 150 by decide),
      slider_setValue_unchanged _ _ (show max 10 (min 500 (150 : ℤ)) = 150 by decide)]
    exact ⟨h32, h32, rfl⟩
  · have hne1 : max 10 (min 500 (150 : ℤ))
        ≠ (⟨some (w0, h0), ddiv (zs : ℚ) 100, zs, pctInput150, lt, lp, ce, sub⟩ : ViewerState).zoom_slider := by
      rw [hclamp]; exact hsl
    have hne2 : max 10 (min 500 (150 : ℤ))
        ≠ (⟨some (w0, h0), ddiv (zs : ℚ) 100, zs, multInput15, lt, lp, ce, sub⟩ : ViewerState).zoom_slider := by
      rw [hclamp]; exact hsl
    have hA : slider_setValue 150
        (⟨some (w0, h0), ddiv (zs : ℚ) 100, zs, pctInput150, lt, lp, ce, sub⟩ : ViewerState)
        = update_zoom_from_slider 150
          (⟨some (w0, h0), ddiv (zs : ℚ) 100, 150, pctInput150, lt, lp, ce, sub⟩ : ViewerState) := by
      rw [slider_setValue_changed _ _ hne1, hclamp]
    have hB : slider_setValue 150
        (⟨some (w0, h0), ddiv (zs : ℚ) 100, zs, multInput15, lt, lp, ce, sub⟩ : ViewerState)
        = update_zoom_from_slider 150
          (⟨some (w0, h0), ddiv (zs : ℚ) 100, 150, multInput15, lt, lp, ce, sub⟩ : ViewerState) := by
      rw [slider_setValue_changed _ _ hne2, hclamp]
    rw [hA, hB,
      update_zoom_from_slider_loaded 150
        (⟨some (w0, h0), ddiv (zs : ℚ) 100, 150, pctInput150, lt, lp, ce, sub⟩ : ViewerState)
        w0 h0 rfl,
      update_zoom_from_slider_loaded 150
        (⟨some (w0, h0), ddiv (zs : ℚ) 100, 150, multInput15, lt, lp, ce, sub⟩ : ViewerState)
        w0 h0 rfl]
    exact ⟨h32, h32, rfl⟩

/-- Witness for `text_percent_and_multiplier_same` on a loaded 40×30
image at 100%. -/
theorem text_percent_and_multiplier_same_witness :
    (demoState (some (40, 30)) 1 100 pctInput100).original_image_pil = some (40, 30) ∧
    (demoState (some (40, 30)) 1 100 pctInput100).current_zoom_factor
      = ddiv ((demoState (some (40, 30)) 1 100 pctInput100).zoom_slider : ℚ) 100 ∧
    ((update_zoom_from_input { demoState (some (40, 30)) 1 100 pctInput100 with
        zoom_input := pctInput150 }).current_zoom_factor = 3/2 ∧
      (update_zoom_from_input { demoState (some (40, 30)) 1 100 pctInput100 with
        zoom_input := multInput15 }).current_zoom_factor = 3/2 ∧
      (update_zoom_from_input { demoState (some (40, 30)) 1 100 pctInput100 with
        zoom_input := pctInput150 }).submitted
        = (update_zoom_from_input { demoState (some (40, 30)) 1 100 pctInput100 with
            zoom_input := multInput15 }).submitted) :=
  ⟨rfl, by decide,
   text_percent_and_multiplier_same (demoState (some (40, 30)) 1 100 pctInput100) 40 30
     rfl (by decide)⟩

/-- Claim C9, counterexample: Committing the valid text `"100%"` while the
slider already stands at 100 is a successful input edge by the claim's
definition (parsable, in range), yet it submits no task: `setValue(100)`
does not emit `valueChanged` when the value is unchanged. -/
theorem valid_input_noop_cex :
    input_parsed_value pctInput100 = some 100 ∧
    ((10 : ℚ) ≤ 100 ∧ (100 : ℚ) ≤ 500) ∧
    (demoState (some (4, 3)) 1 100 pctInput100).original_image_pil = some (4, 3) ∧
    (update_zoom_from_input (demoState (some (4, 3)) 1 100 pctInput100)).submitted = [] := by
  decide

/-- Claim C9, amended: With an image loaded, a slider change to `v` sets
the factor to `v / 100.0`, mirrors `"v%"` into the text field and submits
exactly one task.  A committed valid text submits exactly one task when
its (clamped, truncated) value differs from the current slider value, and
none when it equals it — the slider emits no change signal then. -/
theorem successful_edges_submissions (v : ℤ) (s : ViewerState) (w0 h0 : ℤ)
    (him : s.original_image_pil = some (w0, h0)) :
    ((update_zoom_from_slider v s).current_zoom_factor = ddiv (v : ℚ) 100 ∧
     (update_zoom_from_slider v s).zoom_input = toString v ++ percentStr ∧
     (update_zoom_from_slider v s).submitted.length = s.submitted.length + 1) ∧
    (∀ value : ℚ, input_parsed_value s.zoom_input = some value → 10 ≤ value → value ≤ 500 →
      (update_zoom_from_input s).submitted.length
        = (if max 10 (min 500 (pytrunc value)) = s.zoom_slider then s.submitted.length
           else s.submitted.length + 1)) := by
  constructor
  · rw [update_zoom_from_slider_loaded v s w0 h0 him]
    simp
  · intro value hv h1 h2
    rw [update_zoom_from_input_valid s value hv ⟨h1, h2⟩]
    by_cases h : max 10 (min 500 (pytrunc value)) = s.zoom_slider
    · rw [slider_setValue_unchanged _ _ h, if_pos h]
    · rw [slider_setValue_changed _ _ h, if_neg h,
        update_zoom_from_slider_loaded (max 10 (min 500 (pytrunc value)))
          ({ s with zoom_slider := max 10 (min 500 (pytrunc value)) } : ViewerState) w0 h0 him]
      simp

/-- Witness for `successful_edges_submissions`: slider edge to 200 on a
loaded 4×3 image. -/
theorem successful_edges_submissions_witness :
    (demoState (some (4, 3)) 1 100 pctInput100).original_image_pil = some (4, 3) ∧
    (((update_zoom_from_slider 200 (demoState (some (4, 3)) 1 100 pctInput100)).current_zoom_factor
        = ddiv ((200 : ℤ) : ℚ) 100 ∧
      (update_zoom_from_slider 200 (demoState (some (4, 3)) 1 100 pctInput100)).zoom_input
        = toString (200 : ℤ) ++ percentStr ∧
      (update_zoom_from_slider 200 (demoState (some (4, 3)) 1 100 pctInput100)).submitted.length
        = (demoState (some (4, 3)) 1 100 pctInput100).submitted.length + 1) ∧
     (∀ value : ℚ,
        input_parsed_value (demoState (some (4, 3)) 1 100 pctInput100).zoom_input = some value →
        10 ≤ value → value ≤ 500 →
        (update_zoom_from_input (demoState (some (4, 3)) 1 100 pctInput100)).submitted.length
          = (if max 10 (min 500 (pytrunc value)) = (demoState (some (4, 3)) 1 100 pctInput100).zoom_slider
             then (demoState (some (4, 3)) 1 100 pctInput100).submitted.length
             else (demoState (some (4, 3)) 1 100 pctInput100).submitted.length + 1))) :=
  ⟨rfl, successful_edges_submissions 200 (demoState (some (4, 3)) 1 100 pctInput100) 4 3 rfl⟩

/-- Claim C8: Every call of the external API `set_zoom_factor` routes
through the slider path — it equals a `setValue` on the slider with a
value in `[10, 500]`, so factor, mirrored text and task submission match
the equivalent manual slider move — and from any consistent state the
resulting zoom factor lies in the domain `[0.10, 5.00]`. -/
theorem set_zoom_factor_clamps (factor : ℚ) (s : ViewerState)
    (hs1 : 10 ≤ s.zoom_slider) (hs2 : s.zoom_slider ≤ 500)
    (hinv : s.current_zoom_factor = ddiv (s.zoom_slider : ℚ) 100) :
    ∃ v : ℤ, 10 ≤ v ∧ v ≤ 500 ∧
      set_zoom_factor factor s = slider_setValue v s ∧
      1/10 ≤ (set_zoom_factor factor s).current_zoom_factor ∧
      (set_zoom_factor factor s).current_zoom_factor ≤ 5 := by
  have key : ∀ w : ℤ, 10 ≤ w → w ≤ 500 →
      1/10 ≤ (slider_setValue w s).current_zoom_factor ∧
        (slider_setValue w s).current_zoom_factor ≤ 5 := by
    intro w hw1 hw2
    by_cases h : max 10 (min 500 w) = s.zoom_slider
    · rw [slider_setValue_unchanged _ _ h, hinv]
      exact ddiv_slider_in_domain _ hs1 hs2
    · rw [slider_setValue_changed _ _ h]
      have hf : (update_zoom_from_slider (max 10 (min 500 w))
          ({ s with zoom_slider := max 10 (min 500 w) } : ViewerState)).current_zoom_factor
          = ddiv ((max 10 (min 500 w) : ℤ) : ℚ) 100 := by
        unfold update_zoom_from_slider
        rw [display_image_factor]
      rw [hf]
      exact ddiv_slider_in_domain _ (by omega) (by omega)
  have hb := key (max 10 (min 500 (pytrunc (dmul factor 100)))) (by omega) (by omega)
  exact ⟨max 10 (min 500 (pytrunc (dmul factor 100))), by omega, by omega, rfl, hb.1, hb.2⟩

/-- Witness for `set_zoom_factor_clamps` at multiplier 2.37 from the
default state. -/
theorem set_zoom_factor_clamps_witness :
    (10 ≤ (demoState (some (4, 3)) 1 100 pctInput100).zoom_slider ∧
      (demoState (some (4, 3)) 1 100 pctInput100).zoom_slider ≤ 500 ∧
      (demoState (some (4, 3)) 1 100 pctInput100).current_zoom_factor
        = ddiv ((demoState (some (4, 3)) 1 100 pctInput100).zoom_slider : ℚ) 100) ∧
    (∃ v : ℤ, 10 ≤ v ∧ v ≤ 500 ∧
      set_zoom_factor (237/100) (demoState (some (4, 3)) 1 100 pctInput100)
        = slider_setValue v (demoState (some (4, 3)) 1 100 pctInput100) ∧
      1/10 ≤ (set_zoom_factor (237/100) (demoState (some (4, 3)) 1 100 pctInput100)).current_zoom_factor ∧
      (set_zoom_factor (237/100) (demoState (some (4, 3)) 1 100 pctInput100)).current_zoom_factor ≤ 5) :=
  ⟨⟨by decide, by decide, by decide⟩,
   set_zoom_factor_clamps (237/100) (demoState (some (4, 3)) 1 100 pctInput100)
     (by decide) (by decide) (by decide)⟩

/-- Claim C5, counterexample: With an 8×6 image loaded, the display pass's
statement sequence contains no disabling of the controls before the
submission to the pool: the code calls `thread_pool.start(task)` first
and only afterwards shows the placeholder, clears the pixmap and disables
the controls. -/
theorem display_bracket_claim_cex :
    UIAction.setControlsEnabled false ∉
      (display_image_actions (demoState (some (8, 6)) 1 100 pctInput100)).takeWhile
        (fun a => !a.isStartTask) ∧
    ((display_image_actions (demoState (some (8, 6)) 1 100 pctInput100)).filter
        UIAction.isStartTask).length = 1 ∧
    UIAction.setControlsEnabled false ∈
      display_image_actions (demoState (some (8, 6)) 1 100 pctInput100) := by
  decide

/-- Claim C5, amended: With an image loaded, a display pass connects the
task's three signals, submits the task, and then — immediately after the
submission, within the same uninterrupted event-handler turn — shows the
"processing" placeholder, clears the previously displayed image and
disables the slider and text input; the completion notification
(`finished` → `_processing_finished`) re-enables the controls. -/
theorem display_bracket (s : ViewerState) (wh : ℤ × ℤ)
    (him : s.original_image_pil = some wh) :
    (∃ t, display_image_actions s
        = [UIAction.connectImageProcessed, UIAction.connectError, UIAction.connectFinished,
           UIAction.startTask t, UIAction.setLabelText processingText,
           UIAction.setLabelPixmap none, UIAction.setControlsEnabled false]) ∧
    (display_image s).image_label_text = processingText ∧
    (display_image s).image_label_pixmap = none ∧
    (display_image s).controls_enabled = false ∧
    (∀ s2, (_processing_finished s2).controls_enabled = true) := by
  obtain ⟨w0, h0⟩ := wh
  constructor
  · exact ⟨⟨some (w0, h0), (pytrunc (dmul (w0 : ℚ) s.current_zoom_factor),
      pytrunc (dmul (h0 : ℚ) s.current_zoom_factor))⟩, by simp [display_image_actions, him]⟩
  refine ⟨?_, ?_, ?_, fun s2 => rfl⟩ <;> simp [display_image_loaded s w0 h0 him]

/-- Witness for `display_bracket` on a loaded 8×6 image. -/
theorem display_bracket_witness :
    (demoState (some (8, 6)) 1 100 pctInput100).original_image_pil = some (8, 6) ∧
    ((∃ t, display_image_actions (demoState (some (8, 6)) 1 100 pctInput100)
        = [UIAction.connectImageProcessed, UIAction.connectError, UIAction.connectFinished,
           UIAction.startTask t, UIAction.setLabelText processingText,
           UIAction.setLabelPixmap none, UIAction.setControlsEnabled false]) ∧
      (display_image (demoState (some (8, 6)) 1 100 pctInput100)).image_label_text
        = processingText ∧
      (display_image (demoState (some (8, 6)) 1 100 pctInput100)).image_label_pixmap = none ∧
      (display_image (demoState (some (8, 6)) 1 100 pctInput100)).controls_enabled = false ∧
      (∀ s2, (_processing_finished s2).controls_enabled = true)) :=
  ⟨rfl, display_bracket (demoState (some (8, 6)) 1 100 pctInput100) (8, 6) rfl⟩

/-- Claim C6, counterexample: Opening a corrupt file while an image is
displayed does *not* leave the previously displayed image untouched: the
failure path clears the shown pixmap (and drops the held source
image). -/
theorem open_failure_clears_cex :
    shownDemoState.image_label_pixmap = some 7 ∧
    (open_image_failure demoErrMsg shownDemoState).image_label_pixmap = none ∧
    (open_image_failure demoErrMsg shownDemoState).original_image_pil = none ∧
    shownDemoState.image_label_pixmap
      ≠ (open_image_failure demoErrMsg shownDemoState).image_label_pixmap := by
  decide

/-- Claim C6, amended: A failed open leaves the zoom state — factor,
slider value, text field — and the controls and the submission log
untouched, and performs no zoom reset; but it *clears* the previously
displayed image, drops the held source image, and shows the inline error
text. -/
theorem open_failure_zoom_untouched (e : String) (s : ViewerState) :
    (open_image_failure e s).current_zoom_factor = s.current_zoom_factor ∧
    (open_image_failure e s).zoom_slider = s.zoom_slider ∧
    (open_image_failure e s).zoom_input = s.zoom_input ∧
    (open_image_failure e s).submitted = s.submitted ∧
    (open_image_failure e s).controls_enabled = s.controls_enabled ∧
    (open_image_failure e s).image_label_text = cannotLoadText ++ e ∧
    (open_image_failure e s).image_label_pixmap = none ∧
    (open_image_failure e s).original_image_pil = none :=
  ⟨rfl, rfl, rfl, rfl, rfl, rfl, rfl, rfl⟩

/-- A list of length at most 1 containing `i` is `[i]`. -/
theorem mem_length_le_one (l : List ℕ) (i : ℕ) (h1 : l.length ≤ 1) (h2 : i ∈ l) :
    l = [i] := by
  cases l with
  | nil => simp at h2
  | cons a t =>
    cases t with
    | nil => simp_all
    | cons b t2 => simp at h1

/-- Invariant of the capacity-1 pool: along any valid trace the worker
set never holds more than one task, and
`delivered ++ running ++ queue` is the submission log in order. -/
theorem runPool_inv (es : List PoolEvent) :
    ∀ p q : PoolState, runPool p es = some q →
      p.maxThreadCount = 1 → p.running.length ≤ 1 →
      q.maxThreadCount = 1 ∧ q.running.length ≤ 1 ∧
      q.delivered ++ q.running ++ q.queue
        = p.delivered ++ p.running ++ p.queue ++ submitsOf es := by
  induction es with
  | nil =>
    intro p q hrun h1 h2
    simp only [runPool, Option.some.injEq] at hrun
    subst hrun
    exact ⟨h1, h2, by simp [submitsOf]⟩
  | cons e es ih =>
    intro p q hrun h1 h2
    simp only [runPool] at hrun
    cases e with
    | submit i =>
      simp only [poolStep] at hrun
      obtain ⟨a, b, c⟩ := ih _ q hrun h1 h2
      refine ⟨a, b, ?_⟩
      rw [c]
      simp [submitsOf]
    | dispatch =>
      cases hq : p.queue with
      | nil => simp [poolStep, hq] at hrun
      | cons i rest =>
        by_cases hlen : p.running.length < p.maxThreadCount
        · simp only [poolStep, hq, if_pos hlen] at hrun
          have hrn : p.running = [] := by
            rw [h1] at hlen
            exact List.length_eq_zero.mp (by omega)
          obtain ⟨a, b, c⟩ := ih _ q hrun h1 (by simp [hrn])
          refine ⟨a, b, ?_⟩
          rw [c]
          simp [submitsOf, hrn]
        · simp [poolStep, hq, hlen] at hrun
    | complete i =>
      by_cases hmem : i ∈ p.running
      · simp only [poolStep, if_pos hmem] at hrun
        have hrn : p.running = [i] := mem_length_le_one _ _ h2 hmem
        rw [hrn] at hrun
        simp only [List.erase_cons_head] at hrun
        obtain ⟨a, b, c⟩ := ih _ q hrun h1 (by simp)
        refine ⟨a, b, ?_⟩
        rw [c]
        simp [submitsOf, hrn]
      · simp [poolStep, hmem] at hrun

/-- Claim C3: For a trace that submits tasks `0, …, N-1` in order on the
capacity-1 pool of `ImageViewer.__init__` and runs them all to
completion: outcomes are delivered exactly in submission order; at no
reachable point does more than one task run at a time; and after the
deliveries are applied to the result sink the displayed image is exactly
the rendering of the last task's outcome — a success shows its pixmap,
a failure clears the image — regardless of how the earlier tasks
resolved. -/
theorem pool_fifo_and_last_outcome
    (es : List PoolEvent) (p : PoolState) (N : ℕ)
    (outcomeOf : ℕ → TaskOutcome) (s : ViewerState)
    (hrun : runPool threadPoolInit es = some p)
    (hsub : submitsOf es = List.range N)
    (hq : p.queue = []) (hr : p.running = []) (hN : 0 < N) :
    p.delivered = List.range N ∧
    (∀ es2 p2, runPool threadPoolInit es2 = some p2 → p2.running.length ≤ 1) ∧
    ((p.delivered.map outcomeOf).foldl applyOutcome s).image_label_pixmap
      = renderedPixmap (outcomeOf (N - 1)) := by
  obtain ⟨-, -, hc⟩ := runPool_inv es threadPoolInit p hrun rfl (by decide)
  rw [hq, hr] at hc
  have hdel : p.delivered = List.range N := by
    simpa [threadPoolInit, setMaxThreadCount, hsub] using hc
  refine ⟨hdel, ?_, ?_⟩
  · intro es2 p2 h2
    exact (runPool_inv es2 threadPoolInit p2 h2 rfl (by decide)).2.1
  · rw [hdel]
    obtain ⟨k, rfl⟩ : ∃ k, N = k + 1 := ⟨N - 1, by omega⟩
    rw [List.range_succ]
    simp only [List.map_append, List.foldl_append, List.map_cons, List.map_nil,
      List.foldl_cons, List.foldl_nil, Nat.add_sub_cancel]
    cases houtcome : outcomeOf k <;>
      simp [applyOutcome, _update_image_display, _handle_processing_error, renderedPixmap]

/-- Witness for `pool_fifo_and_last_outcome`: two tasks submitted and
completed in order on the capacity-1 pool. -/
theorem pool_fifo_and_last_outcome_witness :
    (runPool threadPoolInit demoPoolEvents
        = some ⟨1, [], [], [0, 1]⟩ ∧
      submitsOf demoPoolEvents = List.range 2 ∧ 0 < 2) ∧
    ((⟨1, [], [], [0, 1]⟩ : PoolState).delivered = List.range 2 ∧
      (∀ es2 p2, runPool threadPoolInit es2 = some p2 → p2.running.length ≤ 1) ∧
      (((⟨1, [], [], [0, 1]⟩ : PoolState).delivered.map
          (fun i => TaskOutcome.success (i + 5))).foldl applyOutcome
            (demoState none 1 100 pctInput100)).image_label_pixmap
        = renderedPixmap (TaskOutcome.success (2 - 1 + 5))) :=
  ⟨⟨by decide, by decide, by decide⟩,
   pool_fifo_and_last_outcome demoPoolEvents ⟨1, [], [], [0, 1]⟩ 2
     (fun i => TaskOutcome.success (i + 5)) (demoState none 1 100 pctInput100)
     (by decide) (by decide) rfl rfl (by decide)⟩

/-- Witness for `input_invalid_reverts` at the unparsable input
`"abc"`. -/
theorem input_invalid_reverts_witness :
    (input_parsed_value (demoState (some (100, 100)) (ddiv 29 100) 29 badInput).zoom_input = none ∨
      ∃ v, input_parsed_value (demoState (some (100, 100)) (ddiv 29 100) 29 badInput).zoom_input
        = some v ∧ ¬(10 ≤ v ∧ v ≤ 500)) ∧
    update_zoom_from_input (demoState (some (100, 100)) (ddiv 29 100) 29 badInput)
      = { demoState (some (100, 100)) (ddiv 29 100) 29 badInput with
          zoom_input := currentPercentText (demoState (some (100, 100)) (ddiv 29 100) 29 badInput) } :=
  ⟨Or.inl (by decide),
   input_invalid_reverts (demoState (some (100, 100)) (ddiv 29 100) 29 badInput) (Or.inl (by decide))⟩

end PicZoom

